import Mathlib

/-!
Verification of the Westpac-Scholars photo-download scripts.

Shallow embedding of `src/download_photos.py` and `src/dns_resolver_download.py`.
Python stdlib helpers (`urllib.parse.urlparse`, `urllib.parse.urljoin`,
`os.path.splitext`, `str.replace`, `str.strip`, `str.startswith`, `re.sub` for
the one pattern used) are modelled for the shapes this code uses
(absolute http(s) URLs, relative paths without `.`/`..` segments, no
query/fragment splitting, ASCII text); network and filesystem effects are
modelled by explicit oracles and an accumulated trace.  All definitions are
structural recursions so that concrete runs evaluate inside the kernel.
-/

/-- `listStartsWith pat xs` holds when `pat` is an initial segment of `xs`. -/
def listStartsWith : List Char → List Char → Bool
  | [], _ => true
  | _ :: _, [] => false
  | p :: ps, x :: xs => p = x && listStartsWith ps xs

/-- First occurrence of `sep` in `xs`: `some (before, after)` with `sep` removed,
`none` when `sep` does not occur. -/
def breakOn (sep : List Char) : List Char → Option (List Char × List Char)
  | [] => none
  | x :: rest =>
      if listStartsWith sep (x :: rest) then some ([], List.drop (sep.length - 1) rest)
      else match breakOn sep rest with
           | none => none
           | some (a, b) => some (x :: a, b)

/-- Modelled from Python `str.startswith`. -/
def pyStartswith (s p : String) : Bool := listStartsWith p.toList s.toList

/-- The characters Python `str.strip()` removes. -/
def isPySpace (c : Char) : Bool :=
  c = ' ' || c = '\t' || c = '\n' || c = '\x0d' || c = '\x0b' || c = '\x0c'

/-- Modelled from Python `str.strip()` with no argument. -/
def pyStrip (s : String) : String :=
  ⟨((s.toList.dropWhile isPySpace).reverse.dropWhile isPySpace).reverse⟩

/-- Fuel-indexed worker for `pyReplace`; each step consumes at least one
character, so fuel = input length suffices. -/
def replaceFuel (pat rep : List Char) : Nat → List Char → List Char
  | 0, xs => xs
  | _ + 1, [] => []
  | f + 1, x :: rest =>
      if listStartsWith pat (x :: rest) then
        rep ++ replaceFuel pat rep f (List.drop (pat.length - 1) rest)
      else x :: replaceFuel pat rep f rest

/-- Modelled from Python `str.replace` (replace every occurrence); the
degenerate empty pattern, unused by this code, is modelled as the identity. -/
def pyReplace (s pat rep : String) : String :=
  if pat = "" then s
  else ⟨replaceFuel pat.toList rep.toList s.toList.length s.toList⟩

/-- Modelled from Python `urllib.parse.urlparse`, restricted to the fields this
code reads: returns `(netloc, path)`.  A URL without `://` has empty netloc and
is all path, as in Python; query/fragment splitting is not modelled. -/
def urlparse (url : String) : String × String :=
  match breakOn "://".toList url.toList with
  | none => ("", url)
  | some (_, hostpath) =>
      match breakOn ['/'] hostpath with
      | none => (⟨hostpath⟩, "")
      | some (h, t) => (⟨h⟩, ⟨'/' :: t⟩)

/-- The scheme part of an absolute URL (text before `://`), empty if none. -/
def urlScheme (u : String) : String :=
  match breakOn "://".toList u.toList with
  | none => ""
  | some (s, _) => ⟨s⟩

/-- `scheme://netloc` of an absolute URL. -/
def schemeNetloc (u : String) : String :=
  urlScheme u ++ "://" ++ (urlparse u).1

/-- The base URL cut back to (and including) its last `/`; unchanged when it
has no `/`. -/
def baseDir (b : String) : String :=
  match breakOn ['/'] b.toList.reverse with
  | none => b
  | some (_, beforeRev) => ⟨('/' :: beforeRev).reverse⟩

/-- Modelled from Python `urllib.parse.urljoin`, restricted to absolute http(s)
bases and to relative references without `.`/`..` segments (the only shapes this
code produces: the callers always pass `base_url + '/'` and a path with its
leading slash stripped). -/
def urljoin (base rel : String) : String :=
  if rel = "" then base
  else if (breakOn "://".toList rel.toList).isSome then rel
  else if listStartsWith "//".toList rel.toList then urlScheme base ++ ":" ++ rel
  else if listStartsWith ['/'] rel.toList then schemeNetloc base ++ rel
  else baseDir base ++ rel

/-- `ALTERNATIVE_BASE_URLS` from `download_photos.py`. -/
def ALTERNATIVE_BASE_URLS : List String :=
  ["https://scholars.westpac.com.au",
   "https://www.westpac.com.au/about-westpac/sustainability/initiatives-for-you/westpac-scholars",
   "https://www.westpac.com.au/content/dam/public/wsch/images"]

/-- The canonical URL's path with one leading slash stripped, as in
`generate_alternative_urls` (`if path.startswith('/'): path = path[1:]`). -/
def stripLeadingSlash (p : String) : String :=
  if listStartsWith ['/'] p.toList then ⟨p.toList.drop 1⟩ else p

/-- The list `alternatives` built by `generate_alternative_urls` in
`download_photos.py` lines 69-90, in append order, before the final
`list(set(alternatives))`. -/
def alternativesList (url scholar_id year : String) : List String :=
  [url]
    ++ ALTERNATIVE_BASE_URLS.map
        (fun b => urljoin (b ++ "/") (stripLeadingSlash (urlparse url).2))
    ++ (if year ≠ "" ∧ scholar_id ≠ "" then
          ALTERNATIVE_BASE_URLS.flatMap (fun b =>
            [b ++ "/" ++ year ++ "/wsch_scholarhs_" ++ scholar_id ++ "_480x480.jpg",
             b ++ "/scholars_" ++ year ++ "/profile_" ++ scholar_id ++ ".jpg",
             b ++ "/scholars/profile_" ++ year ++ "_" ++ scholar_id ++ ".jpg"])
        else [])

/-- A function is a possible behaviour of CPython's `list(set(xs))` when it
returns a duplicate-free list with exactly the members of `xs`.  CPython's
iteration order of a `set` of strings depends on randomized string hashing, so
the embedding quantifies over all such enumerations. -/
def isSetEnum (enum : List String → List String) : Prop :=
  ∀ xs : List String, (enum xs).Nodup ∧ (enum xs).toFinset = xs.toFinset

/-- `generate_alternative_urls` from `download_photos.py` lines 64-92,
parameterized by the set-enumeration order `enum` used by the final
`list(set(alternatives))`. -/
def generate_alternative_urls (enum : List String → List String)
    (url scholar_id year : String) : List String :=
  if url = "" then [] else enum (alternativesList url scholar_id year)

/-- One concrete valid set enumeration: deduplicate, then reverse. -/
def revDedup (xs : List String) : List String := xs.dedup.reverse

/-- One scholar record: the row fields the downloaders read. -/
structure Row where
  image_url : String
  id : String
  name : String
  year : String
deriving Repr, DecidableEq

/-- Outcome of one HTTP GET as seen by the caller: a connection-level
`RequestException`, or a response with status, content type and body chunks.
`truncatedAt = some k` means the transfer raised after delivering the first `k`
chunks of the body (mid-transfer failure inside `iter_content`). -/
inductive Attempt where
  | connError
  | response (status : Nat) (contentType : String)
      (chunks : List (List Nat)) (truncatedAt : Option Nat)
deriving Repr, DecidableEq

/-- Effects accumulated by one per-record operation: files written under the
output directory (later writes shadow earlier ones), HTTP fetches issued,
hostname resolutions issued, DNS strategies attempted, and the
`logger.warning` message emitted on the empty-URL path (other log lines are
not modelled). -/
structure Trace where
  files : List (String × List (List Nat))
  httpCalls : List String
  resolveCalls : List String
  strategyLog : List String
  warnings : List String
deriving Repr, DecidableEq

def Trace.empty : Trace := ⟨[], [], [], [], []⟩

/-- Write `v` at path `p` (an `open(p, 'wb')` followed by the writes). -/
def setFile (files : List (String × List (List Nat))) (p : String)
    (v : List (List Nat)) : List (String × List (List Nat)) :=
  (p, v) :: files

/-- The bytes visible at path `p` after the writes in `files`, if any. -/
def getFile (files : List (String × List (List Nat))) (p : String) :
    Option (List (List Nat)) :=
  (files.find? (fun e => e.1 == p)).map Prod.snd

/-- `re.sub(r'[^\w\s-]', '', name).replace(' ', '_')` from `download_image`
line 106 (ASCII model of `\w` and `\s`). -/
def nameCleanPhotos (name : String) : String :=
  ⟨(name.toList.filter
      (fun c => c.isAlphanum || c = '_' || isPySpace c || c = '-')).map
    (fun c => if c = ' ' then '_' else c)⟩

/-- The basename (text after the last `/`) of a POSIX path, as characters. -/
def basenameChars (p : String) : List Char :=
  match breakOn ['/'] p.toList.reverse with
  | none => p.toList
  | some (afterRev, _) => afterRev.reverse

/-- Modelled from Python `os.path.splitext(p)[1]`: the extension starts at the
last dot of the basename, unless every character before that dot is itself a
dot (so dotfiles have no extension). -/
def splitextExt (p : String) : String :=
  let cs := basenameChars p
  let dotIdxs := (List.range cs.length).filter (fun i => cs.getD i ' ' = '.')
  match dotIdxs.getLast? with
  | none => ""
  | some i =>
      if (List.range i).all (fun j => cs.getD j ' ' = '.') then ""
      else ⟨cs.drop i⟩

/-- `OUTPUT_DIR` of `download_photos.py`. -/
def OUTPUT_DIR : String := "scholar_photos"

/-- The artifact path computed by `download_image` lines 105-116:
`{OUTPUT_DIR}/{scholar_id}_{name_clean}{file_extension}`, where the extension
comes from the canonical URL's path and defaults to `.jpg`. -/
def photoFilepath (row : Row) : String :=
  let ext0 := splitextExt (urlparse row.image_url).2
  let ext := if ext0 = "" then ".jpg" else ext0
  OUTPUT_DIR ++ "/" ++ row.id ++ "_" ++ nameCleanPhotos row.name ++ ext

/-- `requests.Response.raise_for_status` raises exactly for 4xx/5xx codes. -/
def raiseForStatusRaises (status : Nat) : Bool :=
  (400 ≤ status && status < 500) || (500 ≤ status && status < 600)

/-- The `for current_url in urls_to_try` loop of `download_image` lines
130-153.  Each iteration issues one (already retry-wrapped) `session.get`; any
`RequestException` (connection error, `raise_for_status` on a 4xx/5xx, or a
mid-body transport failure) is caught and the loop continues with the next
URL; a non-image content type also continues.  The body is streamed directly
into the final path `filepath`. -/
def imgTryUrls (http : String → Attempt) (filepath : String) :
    List String → Trace → Option String × Trace
  | [], tr => (none, tr)
  | u :: rest, tr =>
      let tr1 : Trace := { tr with httpCalls := tr.httpCalls ++ [u] }
      match http u with
      | .connError => imgTryUrls http filepath rest tr1
      | .response s ct chunks trunc =>
          if raiseForStatusRaises s then imgTryUrls http filepath rest tr1
          else if !(pyStartswith ct "image/") then imgTryUrls http filepath rest tr1
          else
            match trunc with
            | some k =>
                imgTryUrls http filepath rest
                  { tr1 with files := setFile tr1.files filepath (chunks.take k) }
            | none =>
                (some filepath, { tr1 with files := setFile tr1.files filepath chunks })

/-- `download_image` from `download_photos.py` lines 94-156.  `http` gives the
outcome of one retry-wrapped `session.get` per URL, `exists0` is the
pre-existing filesystem (`os.path.exists`), and `enum` is the hash-set
enumeration used inside `generate_alternative_urls`.  Returns the Python
return value (`filepath` or `None`) together with the trace of effects. -/
def download_image (http : String → Attempt) (enum : List String → List String)
    (exists0 : String → Bool) (row : Row) : Option String × Trace :=
  if pyStrip row.image_url = "" then
    (none, { Trace.empty with warnings := ["No image URL for scholar: " ++ row.name] })
  else
    let filepath := photoFilepath row
    if exists0 filepath then (some filepath, Trace.empty)
    else
      imgTryUrls http filepath
        (generate_alternative_urls enum row.image_url row.id row.year) Trace.empty

/-- Result of `socket.gethostbyname`: an address, or the documented failure
exception `socket.gaierror`. -/
inductive SysResolve where
  | ip (a : String)
  | gaierror
deriving Repr, DecidableEq

/-- `DNS_SERVERS` from `dns_resolver_download.py` lines 37-43; `none` means
"use system default". -/
def DNS_SERVERS : List (String × Option (List String)) :=
  [("Google DNS", some ["8.8.8.8", "8.8.4.4"]),
   ("Cloudflare DNS", some ["1.1.1.1", "1.0.0.1"]),
   ("OpenDNS", some ["208.67.222.222", "208.67.220.220"]),
   ("Quad9", some ["9.9.9.9", "149.112.112.112"]),
   ("Default DNS", none)]

/-- `resolve_domain_with_dns` from `dns_resolver_download.py` lines 50-81.
`custom` models `dns.resolver.Resolver.resolve` under the given name servers
(`Except.error` = the library raised some exception; `Except.ok none` = empty
answer set); `system` models `socket.gethostbyname`, whose documented failure
mode is `socket.gaierror`.  The `Except` in the result records whether an
exception escapes this function: the custom branch is wrapped in
`except Exception`, the default branch in `except socket.gaierror`. -/
def resolve_domain_with_dns
    (custom : List String → String → Except Unit (Option String))
    (system : String → SysResolve)
    (domain : String) (dns_servers : Option (List String)) :
    Except Unit (Option String) :=
  match dns_servers with
  | some servers =>
      match custom servers domain with
      | .ok r => .ok r
      | .error _ => .ok none
  | none =>
      match system domain with
      | .ip a => .ok (some a)
      | .gaierror => .ok none

/-- `download_with_custom_dns` from `dns_resolver_download.py` lines 83-139.
`http ip_url host` models `requests.get(ip_url, headers={'Host': host}, ...)`.
The whole body sits in `try/except Exception`, so every failure (resolution
failure, non-200 status, non-image content type, mid-body transport error)
returns `False`.  The body is streamed directly into `output_path`, skipping
falsy (empty) chunks. -/
def download_with_custom_dns
    (custom : List String → String → Except Unit (Option String))
    (system : String → SysResolve)
    (http : String → String → Attempt)
    (url output_path dns_name : String) (dns_servers : Option (List String))
    (tr : Trace) : Bool × Trace :=
  let domain := (urlparse url).1
  let tr1 : Trace := { tr with resolveCalls := tr.resolveCalls ++ [domain] }
  match resolve_domain_with_dns custom system domain dns_servers with
  | .error _ => (false, tr1)
  | .ok none => (false, tr1)
  | .ok (some ip) =>
      let ip_url := pyReplace url domain ip
      let tr2 : Trace := { tr1 with httpCalls := tr1.httpCalls ++ [ip_url] }
      match http ip_url domain with
      | .connError => (false, tr2)
      | .response s ct chunks trunc =>
          if s ≠ 200 then (false, tr2)
          else if !(pyStartswith ct "image/") then (false, tr2)
          else
            match trunc with
            | some k =>
                let written := (chunks.take k).filter (fun c => !c.isEmpty)
                (false, { tr2 with files := setFile tr2.files output_path written })
            | none =>
                let written := chunks.filter (fun c => !c.isEmpty)
                (true, { tr2 with files := setFile tr2.files output_path written })

/-- `name.replace(' ', '_').replace('.', '').replace(',', '')` from
`process_scholar` line 166. -/
def nameCleanDns (name : String) : String :=
  pyReplace (pyReplace (pyReplace name " " "_") "." "") "," ""

/-- `OUTPUT_DIR` of `dns_resolver_download.py`. -/
def OUTPUT_DIR_DNS : String := "scholar_photos_dns"

/-- The artifact path computed by `process_scholar` lines 165-168. -/
def dnsFilepath (row : Row) : String :=
  OUTPUT_DIR_DNS ++ "/" ++ row.id ++ "_" ++ nameCleanDns row.name ++ ".jpg"

/-- The dictionary returned by `process_scholar`: exactly the keys
`scholar_id`, `name`, `success`, `successful_dns`. -/
structure ScholarResult where
  scholar_id : String
  name : String
  success : Bool
  successful_dns : Option String
deriving Repr, DecidableEq

/-- The `for dns_name, dns_servers in DNS_SERVERS` loop of `process_scholar`
lines 181-192: try each strategy in declared order, stopping at the first
successful download and returning its name. -/
def tryStrategies
    (custom : List String → String → Except Unit (Option String))
    (system : String → SysResolve)
    (http : String → String → Attempt)
    (url filepath : String) :
    List (String × Option (List String)) → Trace → Option String × Trace
  | [], tr => (none, tr)
  | (nm, servers) :: rest, tr =>
      let tr1 : Trace := { tr with strategyLog := tr.strategyLog ++ [nm] }
      let d := download_with_custom_dns custom system http url filepath nm servers tr1
      if d.1 then (some nm, d.2)
      else tryStrategies custom system http url filepath rest d.2

/-- `process_scholar` from `dns_resolver_download.py` lines 141-200; oracles as
in `download_with_custom_dns`, `exists0` is `os.path.exists`. -/
def process_scholar
    (custom : List String → String → Except Unit (Option String))
    (system : String → SysResolve)
    (http : String → String → Attempt)
    (exists0 : String → Bool) (row : Row) : ScholarResult × Trace :=
  if pyStrip row.image_url = "" then
    (⟨row.id, row.name, false, none⟩,
     { Trace.empty with warnings := ["No image URL for scholar: " ++ row.name] })
  else
    let filepath := dnsFilepath row
    if exists0 filepath then
      (⟨row.id, row.name, true, some "Already downloaded"⟩, Trace.empty)
    else
      match tryStrategies custom system http row.image_url filepath DNS_SERVERS Trace.empty with
      | (some nm, tr) => (⟨row.id, row.name, true, some nm⟩, tr)
      | (none, tr) => (⟨row.id, row.name, false, none⟩, tr)

/-- `MAX_RETRIES` from `download_photos.py` line 36. -/
def MAX_RETRIES : Nat := 3

/-- `RETRY_BACKOFF` from `download_photos.py` line 37. -/
def RETRY_BACKOFF : Nat := 2

/-- The `status_forcelist` configured by `create_session` line 56. -/
def statusForcelist : List Nat := [429, 500, 502, 503, 504]

/-- An attempt outcome is retryable when it is a connection-level transient
error, or a response whose status is in the forcelist (urllib3 `Retry` with
`allowed_methods=["GET"]`, for the GET requests this code issues). -/
def isRetryableAttempt (forcelist : List Nat) : Attempt → Bool
  | .connError => true
  | .response s _ _ _ => forcelist.contains s

/-- `urllib3.util.retry.Retry.get_backoff_time` after `n` consecutive failed
attempts: no sleep before the first retry, then `backoff_factor * 2^(n-1)`. -/
def getBackoffTime (factor n : Nat) : Nat :=
  if n ≤ 1 then 0 else factor * 2 ^ (n - 1)

/-- Result of a retry-wrapped GET: the delivered response, or a
`MaxRetryError` carrying the last observed failure. -/
inductive RetryResult where
  | delivered (a : Attempt)
  | exhausted (last : Attempt)
deriving Repr, DecidableEq

/-- Trace of one retry-wrapped GET: number of transport attempts issued, the
backoff sleeps performed between them, and the final result. -/
structure RetryTrace where
  attemptsMade : Nat
  sleeps : List Nat
  result : RetryResult
deriving Repr, DecidableEq

/-- The urllib3 `Retry` loop configured by `create_session`
(`download_photos.py` lines 50-62), for one GET URL.  `attempts i` is the
outcome of the `i`-th transport attempt (0-based); `remaining` is the `total`
retry budget.  A retryable outcome consumes one retry after a backoff sleep;
a non-retryable outcome is delivered to the caller; when the budget is
exhausted the session raises `MaxRetryError` carrying the last failure. -/
def retryLoop (forcelist : List Nat) (factor : Nat) (attempts : Nat → Attempt) :
    Nat → Nat → RetryTrace
  | remaining, i =>
      let a := attempts i
      if isRetryableAttempt forcelist a then
        match remaining with
        | 0 => ⟨i + 1, [], .exhausted a⟩
        | r + 1 =>
            let rest := retryLoop forcelist factor attempts r (i + 1)
            ⟨rest.attemptsMade, getBackoffTime factor (i + 1) :: rest.sleeps, rest.result⟩
      else ⟨i + 1, [], .delivered a⟩

/-- One `session.get` on the session built by `create_session`: the retry loop
under the configured forcelist, backoff factor and retry budget. -/
def sessionGet (attempts : Nat → Attempt) : RetryTrace :=
  retryLoop statusForcelist RETRY_BACKOFF attempts MAX_RETRIES 0

/-- The success result of one `download_with_custom_dns` call, as a pure
function of the oracles: the trace parameter and output path only accumulate
effects and never influence the returned flag. -/
def strategySucceeds
    (custom : List String → String → Except Unit (Option String))
    (system : String → SysResolve)
    (http : String → String → Attempt)
    (url : String) (servers : Option (List String)) : Bool :=
  match resolve_domain_with_dns custom system (urlparse url).1 servers with
  | .error _ => false
  | .ok none => false
  | .ok (some ip) =>
      match http (pyReplace url (urlparse url).1 ip) (urlparse url).1 with
      | .connError => false
      | .response s ct _ trunc =>
          if s ≠ 200 then false
          else if !(pyStartswith ct "image/") then false
          else trunc.isNone

/-- The acceptance predicate exactly as the claim words it: HTTP status in
[200,400) and content type beginning with `image/`.  Stated for comparison
with what the code actually checks. -/
def claimAccepts (status : Nat) (contentType : String) : Bool :=
  (200 ≤ status && status < 400) && pyStartswith contentType "image/"

theorem revDedup_isSetEnum : isSetEnum revDedup := by
  intro xs
  refine ⟨List.nodup_reverse.mpr xs.nodup_dedup, ?_⟩
  ext a
  simp [revDedup, List.mem_toFinset, List.mem_reverse, List.mem_dedup]

theorem mem_enum_iff {enum : List String → List String} (h : isSetEnum enum)
    (xs : List String) (a : String) : a ∈ enum xs ↔ a ∈ xs := by
  have h2 := (h xs).2
  constructor
  · intro ha
    have : a ∈ (enum xs).toFinset := List.mem_toFinset.mpr ha
    rw [h2] at this
    exact List.mem_toFinset.mp this
  · intro ha
    have : a ∈ xs.toFinset := List.mem_toFinset.mpr ha
    rw [← h2] at this
    exact List.mem_toFinset.mp this

theorem dwcd_fst
    (custom : List String → String → Except Unit (Option String))
    (system : String → SysResolve) (http : String → String → Attempt)
    (url out nm : String) (servers : Option (List String)) (tr : Trace) :
    (download_with_custom_dns custom system http url out nm servers tr).1 =
      strategySucceeds custom system http url servers := by
  unfold download_with_custom_dns strategySucceeds
  rcases hr : resolve_domain_with_dns custom system (urlparse url).1 servers with e | r
  · simp [hr]
  rcases r with _ | ip
  · simp [hr]
  simp only [hr]
  rcases hh : http (pyReplace url (urlparse url).1 ip) (urlparse url).1 with
    _ | ⟨s, ct, chunks, trunc⟩
  · simp [hh]
  simp only [hh]
  split
  · rfl
  split
  · rfl
  cases trunc <;> rfl

theorem dwcd_strategyLog
    (custom : List String → String → Except Unit (Option String))
    (system : String → SysResolve) (http : String → String → Attempt)
    (url out nm : String) (servers : Option (List String)) (tr : Trace) :
    (download_with_custom_dns custom system http url out nm servers tr).2.strategyLog =
      tr.strategyLog := by
  unfold download_with_custom_dns
  rcases hr : resolve_domain_with_dns custom system (urlparse url).1 servers with e | r
  · simp [hr]
  rcases r with _ | ip
  · simp [hr]
  simp only [hr]
  rcases hh : http (pyReplace url (urlparse url).1 ip) (urlparse url).1 with
    _ | ⟨s, ct, chunks, trunc⟩
  · simp [hh]
  simp only [hh]
  split
  · rfl
  split
  · rfl
  cases trunc <;> rfl

theorem tryStrategies_spec
    (custom : List String → String → Except Unit (Option String))
    (system : String → SysResolve) (http : String → String → Attempt)
    (url fp : String) :
    ∀ (strats : List (String × Option (List String))) (tr : Trace),
      (tryStrategies custom system http url fp strats tr).1 =
        (strats.find? (fun p => strategySucceeds custom system http url p.2)).map Prod.fst ∧
      (tryStrategies custom system http url fp strats tr).2.strategyLog =
        tr.strategyLog ++
          (strats.map Prod.fst).take
            (strats.findIdx (fun p => strategySucceeds custom system http url p.2) + 1) := by
  intro strats
  induction strats with
  | nil => intro tr; simp [tryStrategies]
  | cons hd rest ih =>
    intro tr
    obtain ⟨nm, servers⟩ := hd
    have h1 := dwcd_fst custom system http url fp nm servers
      { tr with strategyLog := tr.strategyLog ++ [nm] }
    have h2 := dwcd_strategyLog custom system http url fp nm servers
      { tr with strategyLog := tr.strategyLog ++ [nm] }
    by_cases hs : strategySucceeds custom system http url servers = true
    · unfold tryStrategies
      simp only [h1, hs, if_true]
      constructor
      · simp [List.find?, hs]
      · rw [h2]
        simp [List.findIdx_cons, hs]
    · have hs' : strategySucceeds custom system http url servers = false := by
        simpa using hs
      unfold tryStrategies
      simp only [h1, hs', Bool.false_eq_true, if_false]
      obtain ⟨ih1, ih2⟩ := ih (download_with_custom_dns custom system http url fp nm servers
        { tr with strategyLog := tr.strategyLog ++ [nm] }).2
      refine ⟨?_, ?_⟩
      · rw [ih1]
        simp [List.find?, hs']
      · rw [ih2, h2]
        simp only [List.findIdx_cons, hs', cond_false]
        simp [List.take_succ_cons, List.append_assoc]

theorem getFile_setFile (files : List (String × List (List Nat))) (p : String)
    (v : List (List Nat)) : getFile (setFile files p v) p = some v := by
  simp [getFile, setFile, List.find?]

theorem retryLoop_nonretryable (fl : List Nat) (factor : Nat) (attempts : Nat → Attempt)
    (r i : Nat) (ha : isRetryableAttempt fl (attempts i) = false) :
    retryLoop fl factor attempts r i = ⟨i + 1, [], .delivered (attempts i)⟩ := by
  unfold retryLoop
  cases r <;> simp [ha]

theorem retryLoop_zero_retryable (fl : List Nat) (factor : Nat) (attempts : Nat → Attempt)
    (i : Nat) (ha : isRetryableAttempt fl (attempts i) = true) :
    retryLoop fl factor attempts 0 i = ⟨i + 1, [], .exhausted (attempts i)⟩ := by
  unfold retryLoop
  simp [ha]

theorem retryLoop_succ_retryable (fl : List Nat) (factor : Nat) (attempts : Nat → Attempt)
    (r i : Nat) (ha : isRetryableAttempt fl (attempts i) = true) :
    retryLoop fl factor attempts (r + 1) i =
      ⟨(retryLoop fl factor attempts r (i + 1)).attemptsMade,
       getBackoffTime factor (i + 1) :: (retryLoop fl factor attempts r (i + 1)).sleeps,
       (retryLoop fl factor attempts r (i + 1)).result⟩ := by
  conv_lhs => unfold retryLoop
  simp [ha]

theorem retryLoop_nr_A (fl : List Nat) (factor : Nat) (attempts : Nat → Attempt)
    (r i : Nat) (ha : isRetryableAttempt fl (attempts i) = false) :
    (retryLoop fl factor attempts r i).attemptsMade = i + 1 := by
  rw [retryLoop_nonretryable fl factor attempts r i ha]

theorem retryLoop_nr_S (fl : List Nat) (factor : Nat) (attempts : Nat → Attempt)
    (r i : Nat) (ha : isRetryableAttempt fl (attempts i) = false) :
    (retryLoop fl factor attempts r i).sleeps = [] := by
  rw [retryLoop_nonretryable fl factor attempts r i ha]

theorem retryLoop_nr_R (fl : List Nat) (factor : Nat) (attempts : Nat → Attempt)
    (r i : Nat) (ha : isRetryableAttempt fl (attempts i) = false) :
    (retryLoop fl factor attempts r i).result = RetryResult.delivered (attempts i) := by
  rw [retryLoop_nonretryable fl factor attempts r i ha]

theorem retryLoop_zr_A (fl : List Nat) (factor : Nat) (attempts : Nat → Attempt)
    (i : Nat) (ha : isRetryableAttempt fl (attempts i) = true) :
    (retryLoop fl factor attempts 0 i).attemptsMade = i + 1 := by
  rw [retryLoop_zero_retryable fl factor attempts i ha]

theorem retryLoop_zr_S (fl : List Nat) (factor : Nat) (attempts : Nat → Attempt)
    (i : Nat) (ha : isRetryableAttempt fl (attempts i) = true) :
    (retryLoop fl factor attempts 0 i).sleeps = [] := by
  rw [retryLoop_zero_retryable fl factor attempts i ha]

theorem retryLoop_zr_R (fl : List Nat) (factor : Nat) (attempts : Nat → Attempt)
    (i : Nat) (ha : isRetryableAttempt fl (attempts i) = true) :
    (retryLoop fl factor attempts 0 i).result = RetryResult.exhausted (attempts i) := by
  rw [retryLoop_zero_retryable fl factor attempts i ha]

theorem retryLoop_sr_A (fl : List Nat) (factor : Nat) (attempts : Nat → Attempt)
    (r i : Nat) (ha : isRetryableAttempt fl (attempts i) = true) :
    (retryLoop fl factor attempts (r + 1) i).attemptsMade =
      (retryLoop fl factor attempts r (i + 1)).attemptsMade := by
  rw [retryLoop_succ_retryable fl factor attempts r i ha]

theorem retryLoop_sr_S (fl : List Nat) (factor : Nat) (attempts : Nat → Attempt)
    (r i : Nat) (ha : isRetryableAttempt fl (attempts i) = true) :
    (retryLoop fl factor attempts (r + 1) i).sleeps =
      getBackoffTime factor (i + 1) :: (retryLoop fl factor attempts r (i + 1)).sleeps := by
  rw [retryLoop_succ_retryable fl factor attempts r i ha]

theorem retryLoop_sr_R (fl : List Nat) (factor : Nat) (attempts : Nat → Attempt)
    (r i : Nat) (ha : isRetryableAttempt fl (attempts i) = true) :
    (retryLoop fl factor attempts (r + 1) i).result =
      (retryLoop fl factor attempts r (i + 1)).result := by
  rw [retryLoop_succ_retryable fl factor attempts r i ha]

theorem retryLoop_spec (fl : List Nat) (factor : Nat) (attempts : Nat → Attempt) :
    ∀ (r i : Nat),
      (i + 1 ≤ (retryLoop fl factor attempts r i).attemptsMade ∧
        (retryLoop fl factor attempts r i).attemptsMade ≤ i + r + 1) ∧
      (∀ j, i ≤ j → j + 1 < (retryLoop fl factor attempts r i).attemptsMade →
        isRetryableAttempt fl (attempts j) = true) ∧
      (retryLoop fl factor attempts r i).sleeps =
        (List.range' (i + 1) ((retryLoop fl factor attempts r i).attemptsMade - 1 - i)).map
          (getBackoffTime factor) ∧
      (isRetryableAttempt fl (attempts ((retryLoop fl factor attempts r i).attemptsMade - 1)) =
          true →
        (retryLoop fl factor attempts r i).result =
          RetryResult.exhausted (attempts ((retryLoop fl factor attempts r i).attemptsMade - 1))) ∧
      (isRetryableAttempt fl (attempts ((retryLoop fl factor attempts r i).attemptsMade - 1)) =
          false →
        (retryLoop fl factor attempts r i).result =
          RetryResult.delivered (attempts ((retryLoop fl factor attempts r i).attemptsMade - 1))) := by
  intro r
  induction r with
  | zero =>
    intro i
    cases ha : isRetryableAttempt fl (attempts i) with
    | false =>
      rw [retryLoop_nr_A fl factor attempts 0 i ha, retryLoop_nr_S fl factor attempts 0 i ha,
        retryLoop_nr_R fl factor attempts 0 i ha]
      refine ⟨⟨by omega, by omega⟩, ?_, by simp, ?_, ?_⟩
      · intro j hij hlt; omega
      · intro hcontra
        rw [Nat.add_sub_cancel] at hcontra
        rw [ha] at hcontra
        cases hcontra
      · intro _
        rw [Nat.add_sub_cancel]
    | true =>
      rw [retryLoop_zr_A fl factor attempts i ha, retryLoop_zr_S fl factor attempts i ha,
        retryLoop_zr_R fl factor attempts i ha]
      refine ⟨⟨by omega, by omega⟩, ?_, by simp, ?_, ?_⟩
      · intro j hij hlt; omega
      · intro _
        rw [Nat.add_sub_cancel]
      · intro hcontra
        rw [Nat.add_sub_cancel] at hcontra
        rw [ha] at hcontra
        cases hcontra
  | succ r ih =>
    intro i
    cases ha : isRetryableAttempt fl (attempts i) with
    | false =>
      rw [retryLoop_nr_A fl factor attempts (r + 1) i ha,
        retryLoop_nr_S fl factor attempts (r + 1) i ha,
        retryLoop_nr_R fl factor attempts (r + 1) i ha]
      refine ⟨⟨by omega, by omega⟩, ?_, by simp, ?_, ?_⟩
      · intro j hij hlt; omega
      · intro hcontra
        rw [Nat.add_sub_cancel] at hcontra
        rw [ha] at hcontra
        cases hcontra
      · intro _
        rw [Nat.add_sub_cancel]
    | true =>
      rw [retryLoop_sr_A fl factor attempts r i ha,
        retryLoop_sr_S fl factor attempts r i ha,
        retryLoop_sr_R fl factor attempts r i ha]
      obtain ⟨⟨hb1, hb2⟩, hall, hsl, hres1, hres2⟩ := ih (i + 1)
      refine ⟨⟨by omega, by omega⟩, ?_, ?_, hres1, hres2⟩
      · intro j hij hlt
        rcases Nat.eq_or_lt_of_le hij with hji | hji
        · rw [← hji]; exact ha
        · exact hall j (by omega) (by omega)
      · have hn : (retryLoop fl factor attempts r (i + 1)).attemptsMade - 1 - i =
            ((retryLoop fl factor attempts r (i + 1)).attemptsMade - 1 - (i + 1)) + 1 := by
          omega
        rw [hn, List.range'_succ, List.map_cons, ← hsl]

/-- C1: the claim states that for every record with a non-empty canonical URL
the candidate list's first element is that URL, in deterministic first-seen
order.  The code returns `list(set(alternatives))`, whose order is a hash-set
enumeration: under the valid enumeration `revDedup` the canonical URL is not
first, refuting the claim as stated. -/
theorem C1_counterexample :
    isSetEnum revDedup ∧
    (generate_alternative_urls revDedup
        "https://scholars.westpac.com.au/x.jpg" "" "").head? ≠
      some "https://scholars.westpac.com.au/x.jpg" :=
  ⟨revDedup_isSetEnum, by decide⟩

/-- C1 (amended): for every valid set enumeration and every record with a
non-empty canonical URL, the candidate list returned by
`generate_alternative_urls` contains the canonical URL and is duplicate-free;
the order of `list(set(...))` is unspecified, so no position is guaranteed. -/
theorem C1_amended_contains_canonical {enum : List String → List String}
    (h : isSetEnum enum) (url scholar_id year : String) (hu : url ≠ "") :
    url ∈ generate_alternative_urls enum url scholar_id year ∧
    (generate_alternative_urls enum url scholar_id year).Nodup := by
  unfold generate_alternative_urls
  rw [if_neg hu]
  refine ⟨(mem_enum_iff h _ _).mpr ?_, (h _).1⟩
  simp [alternativesList]

theorem C1_witness :
    "https://a/b.jpg" ∈ generate_alternative_urls revDedup "https://a/b.jpg" "42" "2022" ∧
    (generate_alternative_urls revDedup "https://a/b.jpg" "42" "2022").Nodup :=
  C1_amended_contains_canonical revDedup_isSetEnum "https://a/b.jpg" "42" "2022"
    (by decide)

/-- C2: for every input record (any url, id, year, including ones where several
template patterns collapse to the same string) and every valid set enumeration,
the list returned by `generate_alternative_urls` has no duplicate strings under
exact comparison. -/
theorem C2_no_duplicate_candidates {enum : List String → List String}
    (h : isSetEnum enum) (url scholar_id year : String) :
    (generate_alternative_urls enum url scholar_id year).Nodup := by
  unfold generate_alternative_urls
  split
  · exact List.nodup_nil
  · exact (h _).1

theorem C2_witness :
    (generate_alternative_urls revDedup "https://a/b.jpg" "b.jpg" "2022").Nodup :=
  C2_no_duplicate_candidates revDedup_isSetEnum "https://a/b.jpg" "b.jpg" "2022"

/-- C3: the claim says every record whose artifact file already exists yields a
success outcome with no network call.  The empty-URL check precedes the
existence check: a record whose file exists (the filesystem oracle here reports
every path as existing) but whose canonical URL is empty returns a failure
outcome from both per-record operations, refuting the claim as stated. -/
theorem C3_counterexample :
    ((fun _ : String => true) (photoFilepath ⟨"", "42", "Jane Doe", "2022"⟩) = true) ∧
    (download_image (fun _ => Attempt.connError) revDedup (fun _ => true)
        ⟨"", "42", "Jane Doe", "2022"⟩).1 = none ∧
    (process_scholar (fun _ _ => Except.ok (some "1.2.3.4")) (fun _ => SysResolve.gaierror)
        (fun _ _ => Attempt.connError) (fun _ => true)
        ⟨"", "42", "Jane Doe", "2022"⟩).1.success = false := by decide

/-- C3 (amended): for every record with a non-blank canonical URL whose
artifact file already exists at the computed path, `download_image` returns the
filepath and `process_scholar` returns success with `successful_dns` set to
`Already downloaded`, each with an empty trace: zero fetches and zero resolver
calls. -/
theorem C3_amended_skip_existing
    (http : String → Attempt) (enum : List String → List String)
    (existsA : String → Bool)
    (custom : List String → String → Except Unit (Option String))
    (system : String → SysResolve) (http2 : String → String → Attempt)
    (existsB : String → Bool) (row : Row)
    (hu : pyStrip row.image_url ≠ "")
    (hA : existsA (photoFilepath row) = true)
    (hB : existsB (dnsFilepath row) = true) :
    download_image http enum existsA row = (some (photoFilepath row), Trace.empty) ∧
    process_scholar custom system http2 existsB row =
      (⟨row.id, row.name, true, some "Already downloaded"⟩, Trace.empty) := by
  unfold download_image process_scholar
  simp [hu, hA, hB]

theorem C3_witness :
    download_image (fun _ => Attempt.connError) revDedup (fun _ => true)
        ⟨"https://a/b.jpg", "42", "Jane Doe", "2022"⟩ =
      (some (photoFilepath ⟨"https://a/b.jpg", "42", "Jane Doe", "2022"⟩), Trace.empty) ∧
    process_scholar (fun _ _ => Except.ok none) (fun _ => SysResolve.gaierror)
        (fun _ _ => Attempt.connError) (fun _ => true)
        ⟨"https://a/b.jpg", "42", "Jane Doe", "2022"⟩ =
      (⟨"42", "Jane Doe", true, some "Already downloaded"⟩, Trace.empty) :=
  C3_amended_skip_existing (fun _ => Attempt.connError) revDedup (fun _ => true)
    (fun _ _ => Except.ok none) (fun _ => SysResolve.gaierror) (fun _ _ => Attempt.connError)
    (fun _ => true) ⟨"https://a/b.jpg", "42", "Jane Doe", "2022"⟩
    (by decide) rfl rfl

/-- C4: the claim says the failure outcome carries the error
"no candidate URLs".  On an empty canonical URL `process_scholar` logs the
warning `No image URL for scholar: ...` and returns a dictionary with no error
field; no emitted message is "no candidate URLs". -/
theorem C4_counterexample :
    (process_scholar (fun _ _ => Except.error ()) (fun _ => SysResolve.gaierror)
        (fun _ _ => Attempt.connError) (fun _ => false)
        ⟨"", "42", "Jane Doe", "2022"⟩).2.warnings =
      ["No image URL for scholar: Jane Doe"] ∧
    (∀ w ∈ (process_scholar (fun _ _ => Except.error ()) (fun _ => SysResolve.gaierror)
        (fun _ _ => Attempt.connError) (fun _ => false)
        ⟨"", "42", "Jane Doe", "2022"⟩).2.warnings, w ≠ "no candidate URLs") ∧
    (process_scholar (fun _ _ => Except.error ()) (fun _ => SysResolve.gaierror)
        (fun _ _ => Attempt.connError) (fun _ => false)
        ⟨"", "42", "Jane Doe", "2022"⟩).1 = ⟨"42", "Jane Doe", false, none⟩ := by decide

/-- C4 (amended): for every record with an empty canonical URL the candidate
list is empty, and both per-record operations return an immediate failure
outcome with zero network calls, logging the warning `No image URL for
scholar:` followed by the record's name; candidate generation is never invoked
on this path. -/
theorem C4_amended_empty_url
    (http : String → Attempt) (enum : List String → List String)
    (existsA : String → Bool)
    (custom : List String → String → Except Unit (Option String))
    (system : String → SysResolve) (http2 : String → String → Attempt)
    (existsB : String → Bool) (row : Row)
    (h : row.image_url = "") :
    generate_alternative_urls enum row.image_url row.id row.year = [] ∧
    download_image http enum existsA row =
      (none, { Trace.empty with warnings := ["No image URL for scholar: " ++ row.name] }) ∧
    process_scholar custom system http2 existsB row =
      (⟨row.id, row.name, false, none⟩,
       { Trace.empty with warnings := ["No image URL for scholar: " ++ row.name] }) := by
  have hp0 : pyStrip "" = "" := by decide
  unfold generate_alternative_urls download_image process_scholar
  simp [h, hp0]

theorem C4_witness :
    generate_alternative_urls revDedup "" "42" "2022" = [] ∧
    download_image (fun _ => Attempt.connError) revDedup (fun _ => false)
        ⟨"", "42", "Jane Doe", "2022"⟩ =
      (none, { Trace.empty with warnings := ["No image URL for scholar: Jane Doe"] }) ∧
    process_scholar (fun _ _ => Except.ok none) (fun _ => SysResolve.gaierror)
        (fun _ _ => Attempt.connError) (fun _ => false)
        ⟨"", "42", "Jane Doe", "2022"⟩ =
      (⟨"42", "Jane Doe", false, none⟩,
       { Trace.empty with warnings := ["No image URL for scholar: Jane Doe"] }) :=
  C4_amended_empty_url (fun _ => Attempt.connError) revDedup (fun _ => false)
    (fun _ _ => Except.ok none) (fun _ => SysResolve.gaierror) (fun _ _ => Attempt.connError)
    (fun _ => false) ⟨"", "42", "Jane Doe", "2022"⟩ rfl

/-- C5: for every hostname and every strategy (a named name-server list or the
system default), `resolve_domain_with_dns` returns an IP address or `None` and
never propagates an exception to its caller: the custom branch catches every
`Exception`, and the default branch catches `socket.gaierror`, the documented
failure mode of `socket.gethostbyname`. -/
theorem C5_resolver_total
    (custom : List String → String → Except Unit (Option String))
    (system : String → SysResolve) (domain : String)
    (dns_servers : Option (List String)) :
    ∃ r : Option String,
      resolve_domain_with_dns custom system domain dns_servers = .ok r := by
  unfold resolve_domain_with_dns
  cases dns_servers with
  | none =>
    cases hs : system domain with
    | ip a => exact ⟨some a, by simp [hs]⟩
    | gaierror => exact ⟨none, by simp [hs]⟩
  | some ss =>
    cases hc : custom ss domain with
    | ok r => exact ⟨r, by simp [hc]⟩
    | error e => exact ⟨none, by simp [hc]⟩

/-- C6: the claim says a response is accepted exactly when its status is in
[200,400) and its content type begins with `image/`.  `download_with_custom_dns`
accepts only status 200: a 206 response with an image content type satisfies
the claim's predicate but is rejected by the code. -/
theorem C6_counterexample :
    claimAccepts 206 "image/jpeg" = true ∧
    (download_with_custom_dns (fun _ _ => Except.ok (some "1.2.3.4"))
        (fun _ => SysResolve.gaierror)
        (fun _ _ => Attempt.response 206 "image/jpeg" [[1]] none)
        "https://h.example/p.jpg" "out.jpg" "Google DNS" (some ["8.8.8.8", "8.8.4.4"])
        Trace.empty).1 = false := by decide

/-- C6 (amended): `download_with_custom_dns` accepts a delivered response iff
its status is exactly 200 and its content type begins with `image/`, while
`download_image` accepts iff `raise_for_status` does not raise (status outside
[400,600)) and the content type begins with `image/`; a rejected response makes
the loop move on, each candidate URL being fetched at most once, in list
order. -/
theorem C6_amended_validation :
    (∀ (custom : List String → String → Except Unit (Option String))
       (system : String → SysResolve) (http : String → String → Attempt)
       (url out nm : String) (servers : Option (List String)) (tr : Trace)
       (s : Nat) (ct : String) (chunks : List (List Nat)) (ip : String),
      resolve_domain_with_dns custom system (urlparse url).1 servers =
        Except.ok (some ip) →
      http (pyReplace url (urlparse url).1 ip) (urlparse url).1 =
        Attempt.response s ct chunks none →
      ((download_with_custom_dns custom system http url out nm servers tr).1 = true ↔
        (s = 200 ∧ pyStartswith ct "image/" = true))) ∧
    (∀ (http : String → Attempt) (fp u : String) (tr : Trace)
       (s : Nat) (ct : String) (chunks : List (List Nat)),
      http u = Attempt.response s ct chunks none →
      ((imgTryUrls http fp [u] tr).1 ≠ none ↔
        (raiseForStatusRaises s = false ∧ pyStartswith ct "image/" = true))) ∧
    (∀ (http : String → Attempt) (fp : String) (urls : List String) (tr : Trace),
      ∃ n, (imgTryUrls http fp urls tr).2.httpCalls = tr.httpCalls ++ urls.take n) := by
  refine ⟨?_, ?_, ?_⟩
  · intro custom system http url out nm servers tr s ct chunks ip hres hh
    rw [dwcd_fst]
    unfold strategySucceeds
    simp only [hres, hh]
    by_cases h200 : s = 200
    · subst h200
      by_cases hct : pyStartswith ct "image/" = true
      · simp [hct]
      · simp [hct]
    · simp [h200]
  · intro http fp u tr s ct chunks hh
    unfold imgTryUrls
    simp only [hh]
    by_cases hraise : raiseForStatusRaises s = true
    · simp [hraise, imgTryUrls]
    · have hraise' : raiseForStatusRaises s = false := by simpa using hraise
      by_cases hct : pyStartswith ct "image/" = true
      · simp [hraise', hct]
      · have hct' : pyStartswith ct "image/" = false := by simpa using hct
        simp [hraise', hct', imgTryUrls]
  · intro http fp urls
    induction urls with
    | nil => intro tr; exact ⟨0, by simp [imgTryUrls]⟩
    | cons u rest ih =>
      intro tr
      unfold imgTryUrls
      rcases hh : http u with _ | ⟨s, ct, chunks, trunc⟩
      · obtain ⟨n, hn⟩ := ih { tr with httpCalls := tr.httpCalls ++ [u] }
        refine ⟨n + 1, ?_⟩
        simp only [hh]
        rw [hn]
        simp [List.take_succ_cons]
      · simp only [hh]
        by_cases hraise : raiseForStatusRaises s = true
        · obtain ⟨n, hn⟩ := ih { tr with httpCalls := tr.httpCalls ++ [u] }
          refine ⟨n + 1, ?_⟩
          simp only [hraise, if_true]
          rw [hn]
          simp [List.take_succ_cons]
        · have hraise' : raiseForStatusRaises s = false := by simpa using hraise
          by_cases hct : pyStartswith ct "image/" = true
          · simp only [hraise', Bool.false_eq_true, if_false, hct, Bool.not_true,
              Bool.false_eq_true, if_false]
            cases trunc with
            | some k =>
                obtain ⟨n, hn⟩ := ih { tr with
                    httpCalls := tr.httpCalls ++ [u],
                    files := setFile tr.files fp (chunks.take k) }
                refine ⟨n + 1, ?_⟩
                rw [hn]
                simp [List.take_succ_cons]
            | none => exact ⟨1, by simp⟩
          · have hct' : pyStartswith ct "image/" = false := by simpa using hct
            obtain ⟨n, hn⟩ := ih { tr with httpCalls := tr.httpCalls ++ [u] }
            refine ⟨n + 1, ?_⟩
            simp only [hraise', hct', Bool.not_false, Bool.false_eq_true, if_false, if_true]
            rw [hn]
            simp [List.take_succ_cons]

theorem C6_witness :
    ((download_with_custom_dns (fun _ _ => Except.ok (some "9.9.9.9"))
        (fun _ => SysResolve.gaierror)
        (fun _ _ => Attempt.response 200 "image/png" [[1]] none)
        "https://h.example/q.png" "o.jpg" "Quad9" (some ["9.9.9.9"]) Trace.empty).1 = true ↔
      (200 = 200 ∧ pyStartswith "image/png" "image/" = true)) :=
  C6_amended_validation.1 (fun _ _ => Except.ok (some "9.9.9.9"))
    (fun _ => SysResolve.gaierror)
    (fun _ _ => Attempt.response 200 "image/png" [[1]] none)
    "https://h.example/q.png" "o.jpg" "Quad9" (some ["9.9.9.9"]) Trace.empty
    200 "image/png" [[1]] "9.9.9.9" rfl rfl

/-- C7: the session built by `create_session` retries an attempt only when it
is a connection-level transient error or its status lies in the configured
forcelist 429/500/502/503/504; the number of attempts is bounded by
`MAX_RETRIES + 1`; the sleeps follow the urllib3 exponential-backoff schedule
derived from the configured factor; when every attempt within the budget is
retryable the result is an error carrying the last observed failure, and
otherwise the first non-retryable response is delivered. -/
theorem C7_retry_policy (attempts : Nat → Attempt) :
    MAX_RETRIES = 3 ∧ RETRY_BACKOFF = 2 ∧ statusForcelist = [429, 500, 502, 503, 504] ∧
    1 ≤ (sessionGet attempts).attemptsMade ∧
    (sessionGet attempts).attemptsMade ≤ MAX_RETRIES + 1 ∧
    (∀ j, j + 1 < (sessionGet attempts).attemptsMade →
      isRetryableAttempt statusForcelist (attempts j) = true) ∧
    (sessionGet attempts).sleeps =
      (List.range' 1 ((sessionGet attempts).attemptsMade - 1)).map
        (getBackoffTime RETRY_BACKOFF) ∧
    (isRetryableAttempt statusForcelist (attempts ((sessionGet attempts).attemptsMade - 1)) =
        true →
      (sessionGet attempts).result =
        RetryResult.exhausted (attempts ((sessionGet attempts).attemptsMade - 1))) ∧
    (isRetryableAttempt statusForcelist (attempts ((sessionGet attempts).attemptsMade - 1)) =
        false →
      (sessionGet attempts).result =
        RetryResult.delivered (attempts ((sessionGet attempts).attemptsMade - 1))) := by
  obtain ⟨⟨h1, h2⟩, hall, hsl, hres1, hres2⟩ :=
    retryLoop_spec statusForcelist RETRY_BACKOFF attempts MAX_RETRIES 0
  refine ⟨rfl, rfl, rfl, h1, by simpa using h2, fun j hj => hall j (Nat.zero_le j) hj,
    by simpa using hsl, hres1, hres2⟩

theorem C7_witness :
    isRetryableAttempt statusForcelist ((fun _ => Attempt.connError) 0) = true ∧
    (sessionGet (fun _ => Attempt.connError)).result =
      RetryResult.exhausted ((fun _ => Attempt.connError)
        ((sessionGet (fun _ => Attempt.connError)).attemptsMade - 1)) :=
  ⟨by decide,
   (C7_retry_policy (fun _ => Attempt.connError)).2.2.2.2.2.2.2.1 (by decide)⟩

/-- C8: resolution strategies are attempted in the declared order of
`DNS_SERVERS`, whose last entry is the system-default strategy `Default DNS`;
the per-record loop stops at the first strategy whose download succeeds; the
outcome's `successful_dns` is that strategy's name (the `find?` over the
declared list) and its `success` flag mirrors its presence; the
attempted-strategy log is exactly the declared-order names up to and including
the first success. -/
theorem C8_strategy_order
    (custom : List String → String → Except Unit (Option String))
    (system : String → SysResolve) (http : String → String → Attempt)
    (exists0 : String → Bool) (row : Row)
    (hu : pyStrip row.image_url ≠ "")
    (hf : exists0 (dnsFilepath row) = false) :
    DNS_SERVERS.getLast? = some ("Default DNS", none) ∧
    (process_scholar custom system http exists0 row).1.successful_dns =
      (DNS_SERVERS.find? (fun p =>
        strategySucceeds custom system http row.image_url p.2)).map Prod.fst ∧
    (process_scholar custom system http exists0 row).1.success =
      (DNS_SERVERS.find? (fun p =>
        strategySucceeds custom system http row.image_url p.2)).isSome ∧
    (process_scholar custom system http exists0 row).2.strategyLog =
      (DNS_SERVERS.map Prod.fst).take
        (DNS_SERVERS.findIdx (fun p =>
          strategySucceeds custom system http row.image_url p.2) + 1) := by
  refine ⟨rfl, ?_⟩
  obtain ⟨hspec1, hspec2⟩ := tryStrategies_spec custom system http row.image_url
    (dnsFilepath row) DNS_SERVERS Trace.empty
  unfold process_scholar
  rcases htr : tryStrategies custom system http row.image_url (dnsFilepath row)
    DNS_SERVERS Trace.empty with ⟨o, tr⟩
  rw [htr] at hspec1 hspec2
  simp only at hspec1 hspec2
  cases o with
  | none =>
      simp only [if_neg hu, hf, Bool.false_eq_true, if_false, htr]
      refine ⟨hspec1, ?_, ?_⟩
      · cases hfind : DNS_SERVERS.find? (fun p =>
            strategySucceeds custom system http row.image_url p.2) with
        | none => simp [hfind]
        | some p => rw [hfind] at hspec1; simp at hspec1
      · simpa [Trace.empty] using hspec2
  | some nm =>
      simp only [if_neg hu, hf, Bool.false_eq_true, if_false, htr]
      refine ⟨hspec1, ?_, ?_⟩
      · cases hfind : DNS_SERVERS.find? (fun p =>
            strategySucceeds custom system http row.image_url p.2) with
        | none => rw [hfind] at hspec1; simp at hspec1
        | some p => simp [hfind]
      · simpa [Trace.empty] using hspec2

theorem C8_witness :
    pyStrip "https://h.example/p.jpg" ≠ "" ∧
    DNS_SERVERS.getLast? = some ("Default DNS", none) :=
  ⟨by decide,
   (C8_strategy_order (fun _ _ => Except.ok none) (fun _ => SysResolve.gaierror)
      (fun _ _ => Attempt.connError) (fun _ => false)
      ⟨"https://h.example/p.jpg", "42", "Jane Doe", "2022"⟩ (by decide) rfl).1⟩

/-- C9: the claim says no partially written artifact is ever visible under the
final artifact path.  Both downloaders stream the body directly into the final
path: with a response failing mid-transfer after one chunk, `download_image`
fails overall yet the final artifact path holds the single transferred
chunk. -/
theorem C9_counterexample :
    isSetEnum revDedup ∧
    (download_image (fun _ => Attempt.response 200 "image/jpeg" [[7], [8], [9]] (some 1))
        revDedup (fun _ => false) ⟨"https://h.example/p.jpg", "", "Jane Doe", ""⟩).1 = none ∧
    getFile (download_image (fun _ => Attempt.response 200 "image/jpeg" [[7], [8], [9]] (some 1))
        revDedup (fun _ => false) ⟨"https://h.example/p.jpg", "", "Jane Doe", ""⟩).2.files
      (photoFilepath ⟨"https://h.example/p.jpg", "", "Jane Doe", ""⟩) = some [[7]] :=
  ⟨revDedup_isSetEnum, by decide, by decide⟩

/-- C9 (amended): there is no staging file.  The status and content-type
checks precede opening the file, so a rejected response leaves the filesystem
untouched; but a transfer truncated after `k` chunks leaves exactly the first
`k` chunks visible at the final artifact path (with falsy chunks filtered in
`download_with_custom_dns`), and a completed transfer leaves the full body. -/
theorem C9_amended_no_staging :
    (∀ (custom : List String → String → Except Unit (Option String))
       (system : String → SysResolve) (http : String → String → Attempt)
       (url out nm : String) (servers : Option (List String)) (tr : Trace)
       (s : Nat) (ct : String) (chunks : List (List Nat)) (k : Nat) (ip : String),
      resolve_domain_with_dns custom system (urlparse url).1 servers =
        Except.ok (some ip) →
      http (pyReplace url (urlparse url).1 ip) (urlparse url).1 =
        Attempt.response s ct chunks (some k) →
      s = 200 → pyStartswith ct "image/" = true →
      (download_with_custom_dns custom system http url out nm servers tr).1 = false ∧
      getFile (download_with_custom_dns custom system http url out nm servers tr).2.files
        out = some ((chunks.take k).filter (fun c => !c.isEmpty))) ∧
    (∀ (http : String → Attempt) (fp u : String) (tr : Trace)
       (s : Nat) (ct : String) (chunks : List (List Nat)) (k : Nat),
      http u = Attempt.response s ct chunks (some k) →
      raiseForStatusRaises s = false → pyStartswith ct "image/" = true →
      (imgTryUrls http fp [u] tr).1 = none ∧
      getFile (imgTryUrls http fp [u] tr).2.files fp = some (chunks.take k)) ∧
    (∀ (http : String → Attempt) (fp u : String) (tr : Trace)
       (s : Nat) (ct : String) (chunks : List (List Nat)) (trunc : Option Nat),
      http u = Attempt.response s ct chunks trunc →
      (raiseForStatusRaises s = true ∨ pyStartswith ct "image/" = false) →
      (imgTryUrls http fp [u] tr).2.files = tr.files) := by
  refine ⟨?_, ?_, ?_⟩
  · intro custom system http url out nm servers tr s ct chunks k ip hres hh h200 hct
    subst h200
    unfold download_with_custom_dns
    simp only [hres, hh, hct]
    constructor
    · simp
    · simp only [ne_eq, not_true_eq_false, Bool.not_true, Bool.false_eq_true, if_false,
        if_true]
      exact getFile_setFile _ _ _
  · intro http fp u tr s ct chunks k hh hraise hct
    unfold imgTryUrls
    simp only [hh, hraise, hct, Bool.false_eq_true, if_false, Bool.not_true, if_true]
    constructor
    · simp [imgTryUrls]
    · simp only [imgTryUrls]
      exact getFile_setFile _ _ _
  · intro http fp u tr s ct chunks trunc hh hrej
    unfold imgTryUrls
    simp only [hh]
    rcases hrej with hr | hr
    · simp [hr, imgTryUrls]
    · rcases Bool.eq_false_or_eq_true (raiseForStatusRaises s) with h2 | h2
      · simp [h2, hr, imgTryUrls]
      · simp [h2, hr, imgTryUrls]

theorem C9_witness :
    (imgTryUrls (fun _ => Attempt.response 200 "image/jpeg" [[7], [8], [9]] (some 2))
        "scholar_photos/42_Jane_Doe.jpg" ["https://h.example/p.jpg"] Trace.empty).1 = none ∧
    getFile (imgTryUrls (fun _ => Attempt.response 200 "image/jpeg" [[7], [8], [9]] (some 2))
        "scholar_photos/42_Jane_Doe.jpg" ["https://h.example/p.jpg"] Trace.empty).2.files
      "scholar_photos/42_Jane_Doe.jpg" = some ([[7], [8], [9]].take 2) :=
  C9_amended_no_staging.2.1 (fun _ => Attempt.response 200 "image/jpeg" [[7], [8], [9]] (some 2))
    "scholar_photos/42_Jane_Doe.jpg" "https://h.example/p.jpg" Trace.empty
    200 "image/jpeg" [[7], [8], [9]] 2 rfl (by decide) (by decide)

/-- C10: for every input row and every oracle behaviour, `process_scholar`
returns a `ScholarResult` (a structure with exactly the fields `scholar_id`,
`name`, `success`, `successful_dns`), and its `success` flag is `true` exactly
when `successful_dns` is not `None`. -/
theorem C10_success_iff_dns
    (custom : List String → String → Except Unit (Option String))
    (system : String → SysResolve) (http : String → String → Attempt)
    (exists0 : String → Bool) (row : Row) :
    ((process_scholar custom system http exists0 row).1.success = true ↔
      (process_scholar custom system http exists0 row).1.successful_dns ≠ none) := by
  unfold process_scholar
  by_cases h : pyStrip row.image_url = ""
  · simp [h]
  · by_cases he : exists0 (dnsFilepath row) = true
    · simp [h, he]
    · rcases htr : tryStrategies custom system http row.image_url (dnsFilepath row)
        DNS_SERVERS Trace.empty with ⟨o, tr⟩
      cases o <;> simp [h, he, htr]
